import Mathlib

/-!
Shallow embedding of the motion-tracker repository's analysis core:
keypoints and poses (src/core/pose_estimator.py), the angle calculator
(src/core/angle_calculator.py), the repetition counter
(src/core/motion_analyzer.py), and the dance-coach sequence store, DTW
matcher and comparator (demos/dance_coach_demo.py).  Float values are
modelled by rationals where the computation stays in field arithmetic and
by reals where transcendental functions (sqrt, arccos, arctan) appear.
-/

namespace MotionTracker

/-! Keypoint and PoseResult, from src/core/pose_estimator.py.  The three
optional world coordinates mirror the dataclass fields; world_coords
returns them only when all three are present. -/

structure Keypoint where
  name : String
  x : ℚ
  y : ℚ
  z : ℚ
  visibility : ℚ
  presence : ℚ
  world_x : Option ℚ
  world_y : Option ℚ
  world_z : Option ℚ
deriving DecidableEq

def Keypoint.world_coords (kp : Keypoint) : Option (List ℚ) :=
  match kp.world_x, kp.world_y, kp.world_z with
  | some wx, some wy, some wz => some [wx, wy, wz]
  | _, _, _ => none

structure PoseResult where
  keypoints : List Keypoint
  timestamp : ℚ
  confidence : ℚ
deriving DecidableEq

def PoseResult.get_keypoint (pose : PoseResult) (nm : String) : Option Keypoint :=
  pose.keypoints.find? (fun kp => kp.name == nm)

def PoseResult.get_keypoints_by_names (pose : PoseResult) (names : List String) :
    List (Option Keypoint) :=
  names.map (fun nm => pose.get_keypoint nm)

/-! Vector helpers modelling the numpy operations used by the angle
calculator.  Coordinate arrays are lists of rationals; norms introduce a
real square root. -/

def vsub (a b : List ℚ) : List ℚ := List.zipWith (fun p q => p - q) a b

def vdot (a b : List ℚ) : ℚ := (List.zipWith (fun p q => p * q) a b).sum

noncomputable def vnorm (a : List ℚ) : ℝ := Real.sqrt ((vdot a a : ℚ) : ℝ)

noncomputable def degrees (r : ℝ) : ℝ := r * 180 / Real.pi

/-- Modelled on numpy's arctan2: quadrant-aware arctangent, with the
standard piecewise definition over arctan.  Range is the interval from
-pi exclusive to pi inclusive for inputs free of signed zeros. -/
noncomputable def arctan2 (y x : ℝ) : ℝ :=
  if 0 < x then Real.arctan (y / x)
  else if x < 0 then
    (if 0 ≤ y then Real.arctan (y / x) + Real.pi else Real.arctan (y / x) - Real.pi)
  else
    (if 0 < y then Real.pi / 2 else if y < 0 then -(Real.pi / 2) else 0)

/-! AngleCalculator, from src/core/angle_calculator.py. -/

structure AngleCalculator where
  use_3d : Bool

def defaultCalc : AngleCalculator := ⟨true⟩

/-- Joint triplets (point_a, vertex, point_c), the JOINT_DEFINITIONS
table of AngleCalculator. -/
def JOINT_DEFINITIONS : List (String × String × String × String) :=
  [("left_elbow", "left_shoulder", "left_elbow", "left_wrist"),
   ("right_elbow", "right_shoulder", "right_elbow", "right_wrist"),
   ("left_shoulder", "left_elbow", "left_shoulder", "left_hip"),
   ("right_shoulder", "right_elbow", "right_shoulder", "right_hip"),
   ("left_wrist", "left_elbow", "left_wrist", "left_index"),
   ("right_wrist", "right_elbow", "right_wrist", "right_index"),
   ("left_hip", "left_shoulder", "left_hip", "left_knee"),
   ("right_hip", "right_shoulder", "right_hip", "right_knee"),
   ("left_knee", "left_hip", "left_knee", "left_ankle"),
   ("right_knee", "right_hip", "right_knee", "right_ankle"),
   ("left_ankle", "left_knee", "left_ankle", "left_foot_index"),
   ("right_ankle", "right_knee", "right_ankle", "right_foot_index")]

def lookupJoint (joint : String) : Option (String × String × String) :=
  (JOINT_DEFINITIONS.find? (fun e => e.1 == joint)).map (fun e => e.2)

/-- The static method calculate_angle_3points: cosine of the angle at
vertex b via the dot product, an epsilon of 1e-8 added to the product of
norms, the cosine clipped to the interval from -1 to 1, then arccos in
degrees (lines 38-64). -/
noncomputable def calculate_angle_3points (a b c : List ℚ) : ℝ :=
  let ba := vsub a b
  let bc := vsub c b
  let cosine : ℝ := ((vdot ba bc : ℚ) : ℝ) / (vnorm ba * vnorm bc + 1 / 100000000)
  degrees (Real.arccos (max (-1) (min cosine 1)))

/-- get_keypoint_coords (lines 66-91): none when the keypoint is missing
or its visibility is below 0.5, else world coordinates when requested and
available, else image coordinates (3 components when use_3d, else 2). -/
def AngleCalculator.get_keypoint_coords (c : AngleCalculator)
    (keypoint : Option Keypoint) (use_world : Bool) : Option (List ℚ) :=
  match keypoint with
  | none => none
  | some kp =>
    if kp.visibility < 1 / 2 then none
    else if c.use_3d && use_world && (kp.world_coords).isSome then kp.world_coords
    else if c.use_3d then some [kp.x, kp.y, kp.z]
    else some [kp.x, kp.y]

noncomputable def AngleCalculator.calculate_angle_from_keypoints (c : AngleCalculator)
    (kp_a kp_b kp_c : Option Keypoint) (use_world : Bool) : Option ℝ :=
  match c.get_keypoint_coords kp_a use_world, c.get_keypoint_coords kp_b use_world,
      c.get_keypoint_coords kp_c use_world with
  | some ca, some cb, some cc => some (calculate_angle_3points ca cb cc)
  | _, _, _ => none

/-- calculate_joint_angle (lines 93-115): a joint name outside the
topology table raises ValueError, modelled as the error branch of Except;
a known joint delegates to calculate_angle_from_keypoints, whose absent
result is the ok-none branch. -/
noncomputable def AngleCalculator.calculate_joint_angle (c : AngleCalculator)
    (pose : PoseResult) (joint : String) (use_world : Bool) :
    Except String (Option ℝ) :=
  match lookupJoint joint with
  | none => Except.error ("Unknown joint: " ++ joint)
  | some (pa, v, pc) =>
      Except.ok (c.calculate_angle_from_keypoints (pose.get_keypoint pa)
        (pose.get_keypoint v) (pose.get_keypoint pc) use_world)

/-- calculate_all_angles (lines 161-184): every topology entry computed
independently, exceptions caught per joint. -/
noncomputable def AngleCalculator.calculate_all_angles (c : AngleCalculator)
    (pose : PoseResult) (use_world : Bool) : List (String × Option ℝ) :=
  JOINT_DEFINITIONS.map (fun e =>
    (e.1, match c.calculate_joint_angle pose e.1 use_world with
          | Except.ok a => a
          | Except.error _ => none))

/-- get_midpoint (lines 186-203): average of world coordinates when both
keypoints carry them, else of the image coordinates; none only when a
keypoint is missing. -/
def get_midpoint (kp1 kp2 : Option Keypoint) : Option (List ℚ) :=
  match kp1, kp2 with
  | some k1, some k2 =>
    match k1.world_coords, k2.world_coords with
    | some w1, some w2 => some (List.zipWith (fun p q => (p + q) / 2) w1 w2)
    | _, _ => some [(k1.x + k2.x) / 2, (k1.y + k2.y) / 2, (k1.z + k2.z) / 2]
  | _, _ => none

/-- The fold at the end of calculate_head_tilt (line 227): the raw angle
is kept when its magnitude is strictly below 90, otherwise 180 is
subtracted from a positive raw angle and added to a non-positive one. -/
noncomputable def headTiltFold (angle : ℝ) : ℝ :=
  if |angle| < 90 then angle else (if 0 < angle then angle - 180 else angle + 180)

/-- calculate_head_tilt (lines 205-229): ear-to-ear vector angle from
horizontal, eyes as fallback when an ear is missing; presence is tested
by Python truthiness, so visibility is not consulted here. -/
noncomputable def AngleCalculator.calculate_head_tilt (_c : AngleCalculator)
    (pose : PoseResult) : Option ℝ :=
  match (if (pose.get_keypoint "left_ear").isNone || (pose.get_keypoint "right_ear").isNone
         then (pose.get_keypoint "left_eye", pose.get_keypoint "right_eye")
         else (pose.get_keypoint "left_ear", pose.get_keypoint "right_ear")) with
  | (some l, some r) =>
      some (headTiltFold (degrees (arctan2 ((r.y - l.y : ℚ) : ℝ) ((r.x - l.x : ℚ) : ℝ))))
  | _ => none

/-- calculate_neck_angle (lines 231-272): needs both shoulders; head
point is the ear midpoint, else the nose resolved through
get_keypoint_coords (the one posture path that checks visibility). -/
noncomputable def AngleCalculator.calculate_neck_angle (c : AngleCalculator)
    (pose : PoseResult) (use_world : Bool) : Option ℝ :=
  if (pose.get_keypoint "left_shoulder").isNone ||
      (pose.get_keypoint "right_shoulder").isNone then none
  else
    match get_midpoint (pose.get_keypoint "left_shoulder")
        (pose.get_keypoint "right_shoulder") with
    | none => none
    | some shoulder_mid =>
      match (if (pose.get_keypoint "left_ear").isSome && (pose.get_keypoint "right_ear").isSome
             then get_midpoint (pose.get_keypoint "left_ear") (pose.get_keypoint "right_ear")
             else if (pose.get_keypoint "nose").isSome
             then c.get_keypoint_coords (pose.get_keypoint "nose") use_world
             else none) with
      | none => none
      | some head_point =>
        some (degrees (arctan2
          ((|head_point.getD 0 0 - shoulder_mid.getD 0 0| : ℚ) : ℝ)
          ((|head_point.getD 1 0 - shoulder_mid.getD 1 0| : ℚ) : ℝ)))

/-- calculate_body_lean (lines 274-306): signed angle of the
shoulder-midpoint to hip-midpoint vector from vertical. -/
noncomputable def AngleCalculator.calculate_body_lean (_c : AngleCalculator)
    (pose : PoseResult) (_use_world : Bool) : Option ℝ :=
  if (pose.get_keypoint "left_shoulder").isNone ||
      (pose.get_keypoint "right_shoulder").isNone ||
      (pose.get_keypoint "left_hip").isNone ||
      (pose.get_keypoint "right_hip").isNone then none
  else
    match get_midpoint (pose.get_keypoint "left_shoulder") (pose.get_keypoint "right_shoulder"),
        get_midpoint (pose.get_keypoint "left_hip") (pose.get_keypoint "right_hip") with
    | some sm, some hm =>
        some (degrees (arctan2 ((sm.getD 0 0 - hm.getD 0 0 : ℚ) : ℝ)
          ((sm.getD 1 0 - hm.getD 1 0 : ℚ) : ℝ)))
    | _, _ => none

/-- calculate_shoulder_tilt (lines 308-326): angle of the shoulder-to-
shoulder vector from horizontal; only presence is tested. -/
noncomputable def AngleCalculator.calculate_shoulder_tilt (_c : AngleCalculator)
    (pose : PoseResult) : Option ℝ :=
  match pose.get_keypoint "left_shoulder", pose.get_keypoint "right_shoulder" with
  | some l, some r =>
      some (degrees (arctan2 ((r.y - l.y : ℚ) : ℝ) ((r.x - l.x : ℚ) : ℝ)))
  | _, _ => none

/-- calculate_hip_tilt (lines 328-346). -/
noncomputable def AngleCalculator.calculate_hip_tilt (_c : AngleCalculator)
    (pose : PoseResult) : Option ℝ :=
  match pose.get_keypoint "left_hip", pose.get_keypoint "right_hip" with
  | some l, some r =>
      some (degrees (arctan2 ((r.y - l.y : ℚ) : ℝ) ((r.x - l.x : ℚ) : ℝ)))
  | _, _ => none

/-- calculate_spine_curve (lines 348-381): magnitude-only torso angle,
none when the vertical separation of the midpoints is below 0.01. -/
noncomputable def AngleCalculator.calculate_spine_curve (_c : AngleCalculator)
    (pose : PoseResult) (_use_world : Bool) : Option ℝ :=
  if (pose.get_keypoint "left_shoulder").isNone ||
      (pose.get_keypoint "right_shoulder").isNone ||
      (pose.get_keypoint "left_hip").isNone ||
      (pose.get_keypoint "right_hip").isNone then none
  else
    match get_midpoint (pose.get_keypoint "left_shoulder") (pose.get_keypoint "right_shoulder"),
        get_midpoint (pose.get_keypoint "left_hip") (pose.get_keypoint "right_hip") with
    | some sm, some hm =>
        if |sm.getD 1 0 - hm.getD 1 0| < 1 / 100 then none
        else some (degrees (arctan2 ((|sm.getD 0 0 - hm.getD 0 0| : ℚ) : ℝ)
          ((|sm.getD 1 0 - hm.getD 1 0| : ℚ) : ℝ)))
    | _, _ => none

structure PostureMetrics where
  head_tilt : Option ℝ
  neck_angle : Option ℝ
  body_lean : Option ℝ
  shoulder_tilt : Option ℝ
  hip_tilt : Option ℝ
  spine_curve : Option ℝ

/-- calculate_posture_metrics (lines 383-409): the six metrics computed
independently. -/
noncomputable def AngleCalculator.calculate_posture_metrics (c : AngleCalculator)
    (pose : PoseResult) (use_world : Bool) : PostureMetrics :=
  ⟨c.calculate_head_tilt pose, c.calculate_neck_angle pose use_world,
   c.calculate_body_lean pose use_world, c.calculate_shoulder_tilt pose,
   c.calculate_hip_tilt pose, c.calculate_spine_curve pose use_world⟩

/-! Repetition counting, from MotionAnalyzer.detect_rep_count
(src/core/motion_analyzer.py lines 79-137).  The per-joint angle history
dictionary is modelled as an association list. -/

inductive RepState where
  | idle
  | low
  | high
deriving DecidableEq

/-- One step of the hysteresis state machine in detect_rep_count.  The
running state is (state, frames_in_state, reps). -/
def repStep (threshold_low threshold_high : ℚ) (min_frames : ℕ) :
    RepState × ℕ × ℕ → ℚ → RepState × ℕ × ℕ
  | (.idle, frames, reps), angle =>
      if angle ≤ threshold_low then (.low, 1, reps) else (.idle, frames, reps)
  | (.low, frames, reps), angle =>
      if threshold_high ≤ angle then
        if min_frames ≤ frames then (.high, 1, reps) else (.idle, 0, reps)
      else (.low, frames + 1, reps)
  | (.high, frames, reps), angle =>
      if angle ≤ threshold_low then
        if min_frames ≤ frames then (.low, 1, reps + 1) else (.idle, 0, reps)
      else (.high, frames + 1, reps)

def lookupHistory (angle_history : List (String × List ℚ)) (joint : String) :
    Option (List ℚ) :=
  (angle_history.find? (fun e => e.1 == joint)).map (fun e => e.2)

def detect_rep_count (angle_history : List (String × List ℚ)) (joint : String)
    (threshold_low threshold_high : ℚ) (min_frames : ℕ) : ℕ :=
  match lookupHistory angle_history joint with
  | none => 0
  | some angles =>
    if angles.length < min_frames * 2 then 0
    else (angles.foldl (repStep threshold_low threshold_high min_frames)
            (RepState.idle, 0, 0)).2.2

/-! Dynamic time warping, from DTWMatcher (demos/dance_coach_demo.py lines
134-190).  The cost matrix carries the float infinity of the boundary
cells, modelled by WithTop; entries are generic over a linear ordered
field so the same definition serves rational test inputs and the real
angle series of the coach. -/

def dtwMat {α : Type} [LinearOrderedField α] (seq1 seq2 : List α) :
    ℕ → ℕ → WithTop α
  | 0, 0 => 0
  | 0, _ + 1 => ⊤
  | _ + 1, 0 => ⊤
  | i + 1, j + 1 =>
      (↑|seq1.getD i 0 - seq2.getD j 0| : WithTop α) +
        min (dtwMat seq1 seq2 i (j + 1))
          (min (dtwMat seq1 seq2 (i + 1) j) (dtwMat seq1 seq2 i j))

def dtw_distance {α : Type} [LinearOrderedField α] (seq1 seq2 : List α) :
    WithTop α :=
  if seq1.length = 0 ∨ seq2.length = 0 then ⊤
  else dtwMat seq1 seq2 seq1.length seq2.length

def normalize_score {α : Type} [LinearOrderedField α] (distance seq_length : α) : α :=
  if seq_length = 0 then 0
  else max 0 (100 - distance / seq_length / 180 * 100)

/-! DanceSequence, its persistence, and DanceCoach.compare_sequences, from
demos/dance_coach_demo.py.  Per-frame angle dictionaries map joint names
to optional real angles; the persisted payload carries only the name, the
angle history and the timestamps (lines 97-127), never the poses. -/

structure DanceSequence where
  sname : String
  poses : List PoseResult
  angles_history : List (List (String × Option ℝ))
  timestamps : List ℚ

/-- The dunder len of DanceSequence (lines 129-131) counts the poses
list. -/
def DanceSequence.length (s : DanceSequence) : ℕ := s.poses.length

/-- The payload pickled by DanceSequence.save (lines 97-109). -/
structure SavedSequenceData where
  sname : String
  angles_history : List (List (String × Option ℝ))
  timestamps : List ℚ

/-- DanceSequence.load (lines 111-127): the constructor leaves poses
empty and only angles_history and timestamps are restored. -/
def DanceSequence.load (data : SavedSequenceData) : DanceSequence :=
  ⟨data.sname, [], data.angles_history, data.timestamps⟩

/-- Python dict.get with default None over a per-frame angle mapping. -/
def dictGetAngle (d : List (String × Option ℝ)) (k : String) : Option ℝ :=
  match d.find? (fun e => e.1 == k) with
  | some e => e.2
  | none => none

/-- get_angle_sequence (lines 65-77): absent entries, absent keys and the
Python falsiness coercion all export as 0. -/
def DanceSequence.get_angle_sequence (s : DanceSequence) (joint_name : String) :
    List ℝ :=
  s.angles_history.map (fun angles => (dictGetAngle angles joint_name).getD 0)

/-- Whether a joint appears in some frame of the sequence, i.e. is a key
of get_all_angle_sequences (lines 79-95). -/
def DanceSequence.hasJoint (s : DanceSequence) (joint : String) : Bool :=
  s.angles_history.any (fun angles => angles.any (fun e => e.1 == joint))

def key_joints : List String :=
  ["left_elbow", "right_elbow", "left_shoulder", "right_shoulder",
   "left_knee", "right_knee", "left_hip", "right_hip"]

/-- Result of compare_sequences: either the tagged error dictionary or
the per-joint (distance, score) table with the overall score.  The error
branch carries only the message, so no scores exist in the error case. -/
inductive ComparisonOutcome where
  | error (msg : String)
  | result (joint_scores : List (String × WithTop ℝ × ℝ)) (overall_score : ℝ)

def ComparisonOutcome.isErrorOutcome : ComparisonOutcome → Bool
  | .error _ => true
  | .result _ _ => false

/-- normalize_score applied to a possibly infinite DTW distance: Python
float arithmetic turns an infinite distance into max(0, -inf) = 0. -/
noncomputable def normalize_score_ext (d : WithTop ℝ) (seq_length : ℝ) : ℝ :=
  match d with
  | ⊤ => 0
  | (q : ℝ) => normalize_score q seq_length

/-- compare_sequences (lines 253-294).  Python evaluates
`not self.reference or not self.current` through truthiness, and a
DanceSequence defines dunder len, so a present sequence of length zero
also takes the missing-sequence branch. -/
noncomputable def compare_sequences (reference current : Option DanceSequence) :
    ComparisonOutcome :=
  match reference, current with
  | some ref, some cur =>
    if ref.length = 0 ∨ cur.length = 0 then
      ComparisonOutcome.error "Missing reference or current sequence"
    else if ref.length < 10 ∨ cur.length < 10 then
      ComparisonOutcome.error "Sequences too short (need at least 10 frames)"
    else
      let joint_scores :=
        (key_joints.filter (fun j => ref.hasJoint j && cur.hasJoint j)).map
          (fun j =>
            let ref_seq := ref.get_angle_sequence j
            let curr_seq := cur.get_angle_sequence j
            let distance := dtw_distance ref_seq curr_seq
            let avg_len := ((ref_seq.length : ℝ) + (curr_seq.length : ℝ)) / 2
            (j, distance, normalize_score_ext distance avg_len))
      let overall :=
        if joint_scores.length ≠ 0 then
          (joint_scores.map (fun e => e.2.2)).sum / (joint_scores.length : ℝ)
        else 0
      ComparisonOutcome.result joint_scores overall
  | _, _ => ComparisonOutcome.error "Missing reference or current sequence"

/-! Concrete inputs used by the claim theorems and witnesses. -/

/-- The stored angle history of claim C1, keyed by a joint name. -/
def c1_history : List (String × List ℚ) :=
  [("left_elbow", [100, 80, 50, 80, 100, 80, 50, 80, 100])]

/-- A nineteen-frame history full of complete low-high-low cycles, still
shorter than twice the default min_frames of 10. -/
def c9_history : List (String × List ℚ) :=
  [("left_knee", [100, 50, 100, 50, 100, 50, 100, 50, 100, 50,
                  100, 50, 100, 50, 100, 50, 100, 50, 100])]

/-- A pose with no keypoints at all. -/
def emptyPose : PoseResult := ⟨[], 0, 1⟩

/-- Python truthiness of an optional sequence, through dunder len: the
length of the sequence when present, 0 when absent. -/
def optSeqLen (s : Option DanceSequence) : ℕ :=
  match s with
  | none => 0
  | some q => q.length

def isErrorE {ε α : Type} : Except ε α → Bool
  | Except.error _ => true
  | Except.ok _ => false

/-- Whether an optional keypoint is missing or carries visibility below
0.5, the absence condition of the spec for per-frame angle inputs. -/
def keypointAbsentOrLowVis (k : Option Keypoint) : Prop :=
  k = none ∨ ∃ kp, k = some kp ∧ kp.visibility < 1 / 2

/-- Both shoulders detected, with visibility 0, below every usability
threshold. -/
def c3_pose : PoseResult :=
  ⟨[⟨"left_shoulder", 0, 0, 0, 0, 1, none, none, none⟩,
    ⟨"right_shoulder", 1, 0, 0, 0, 1, none, none, none⟩], 0, 1⟩

/-- Ears stacked vertically: the ear-to-ear vector points straight down
the image, so the raw arctangent angle is exactly 90 degrees. -/
def c7_pose : PoseResult :=
  ⟨[⟨"left_ear", 0, 0, 0, 1, 1, none, none, none⟩,
    ⟨"right_ear", 0, 1, 0, 1, 1, none, none, none⟩], 0, 1⟩

/-- Ears level: the raw arctangent angle is exactly 0 degrees. -/
def c7_witness_pose : PoseResult :=
  ⟨[⟨"left_ear", 0, 0, 0, 1, 1, none, none, none⟩,
    ⟨"right_ear", 1, 0, 0, 1, 1, none, none, none⟩], 0, 1⟩

/-- Saved data for claim C10: fifteen frames of angle history and
timestamps survive persistence, but no poses are part of the payload. -/
def c10_saved : SavedSequenceData :=
  ⟨"Reference",
   List.replicate 15 [("left_elbow", some (90 : ℝ))],
   List.replicate 15 0⟩

/-- A current sequence holding fifteen recorded poses. -/
def c10_current : DanceSequence :=
  ⟨"Practice", List.replicate 15 emptyPose,
   List.replicate 15 [("left_elbow", some (90 : ℝ))],
   List.replicate 15 0⟩

/-! Claim theorems. -/

/-- C1, counterexample: over the history [100,80,50,80,100,80,50,80,100]
with thresholdLow 60, thresholdHigh 90 and minFrames 1 the repetition
counter does not return 2. -/
theorem c1_rep_count_counterexample :
    detect_rep_count c1_history "left_elbow" 60 90 1 ≠ 2 := by decide

/-- C1, amended: over the history [100,80,50,80,100,80,50,80,100] with
thresholdLow 60, thresholdHigh 90 and minFrames 1 the repetition counter
returns exactly 1 completed repetition: the machine enters Low at the
first 50, High at the second 100, counts one repetition at the second 50
and re-enters High at the final 100 without a closing Low. -/
theorem c1_rep_count_amended :
    detect_rep_count c1_history "left_elbow" 60 90 1 = 1 := by decide

/-- C9: detect_rep_count returns 0 whenever the joint has no recorded
history or the retained history holds fewer than twice min_frames
entries, regardless of the angle values. -/
theorem c9_rep_count_short_history (angle_history : List (String × List ℚ))
    (joint : String) (threshold_low threshold_high : ℚ) (min_frames : ℕ) :
    (lookupHistory angle_history joint = none →
      detect_rep_count angle_history joint threshold_low threshold_high min_frames = 0) ∧
    (∀ angles, lookupHistory angle_history joint = some angles →
      angles.length < min_frames * 2 →
      detect_rep_count angle_history joint threshold_low threshold_high min_frames = 0) := by
  constructor
  · intro h
    simp [detect_rep_count, h]
  · intro angles h hlen
    simp [detect_rep_count, h, hlen]

/-- Witness for C9: an unknown joint reports 0, and with the default
min_frames of 10 a nineteen-frame history containing many full cycles
still reports 0. -/
theorem c9_rep_count_short_history_witness :
    detect_rep_count [] "left_knee" 60 90 10 = 0 ∧
    detect_rep_count c9_history "left_knee" 60 90 10 = 0 := by
  constructor
  · exact (c9_rep_count_short_history [] "left_knee" 60 90 10).1 (by decide)
  · exact (c9_rep_count_short_history c9_history "left_knee" 60 90 10).2
      [100, 50, 100, 50, 100, 50, 100, 50, 100, 50,
       100, 50, 100, 50, 100, 50, 100, 50, 100] (by decide) (by decide)

/-- C2: compare_sequences returns the tagged error outcome exactly when
the reference is absent, the current sequence is absent, or either holds
fewer than 10 frames; the error constructor carries only a message, so no
per-joint or overall scores exist in the error case. -/
theorem c2_compare_error_iff (reference current : Option DanceSequence) :
    (compare_sequences reference current).isErrorOutcome = true ↔
      (reference = none ∨ current = none ∨
        optSeqLen reference < 10 ∨ optSeqLen current < 10) := by
  cases reference with
  | none => simp [compare_sequences, ComparisonOutcome.isErrorOutcome]
  | some r =>
    cases current with
    | none => simp [compare_sequences, ComparisonOutcome.isErrorOutcome]
    | some c =>
      simp only [compare_sequences, optSeqLen, Option.some_ne_none, false_or]
      by_cases h0 : r.length = 0 ∨ c.length = 0
      · simp [h0, ComparisonOutcome.isErrorOutcome]
        omega
      · by_cases h1 : r.length < 10 ∨ c.length < 10
        · simp [h0, h1, ComparisonOutcome.isErrorOutcome]
        · simp [h0, h1, ComparisonOutcome.isErrorOutcome]

/-- C10, counterexample: comparing a loaded fifteen-frame reference with
a fifteen-frame current sequence yields the missing-sequence error, not
the claimed too-short error. -/
theorem c10_load_counterexample :
    compare_sequences (some (DanceSequence.load c10_saved)) (some c10_current) =
      ComparisonOutcome.error "Missing reference or current sequence" ∧
    "Missing reference or current sequence" ≠
      "Sequences too short (need at least 10 frames)" := by
  constructor
  · simp [compare_sequences, DanceSequence.load, DanceSequence.length, c10_saved]
  · decide

/-- C10, amended: every loaded DanceSequence has length 0 because the
dunder len counts poses and poses are not persisted; a zero-length
sequence is falsy under Python truthiness, so compare_sequences with a
loaded sequence on either side always returns the missing-sequence
error, no matter how many frames of angle history were saved. -/
theorem c10_load_always_missing_error (data : SavedSequenceData)
    (other : Option DanceSequence) :
    (DanceSequence.load data).length = 0 ∧
    compare_sequences (some (DanceSequence.load data)) other =
      ComparisonOutcome.error "Missing reference or current sequence" ∧
    compare_sequences other (some (DanceSequence.load data)) =
      ComparisonOutcome.error "Missing reference or current sequence" := by
  refine ⟨rfl, ?_, ?_⟩
  · cases other with
    | none => simp [compare_sequences]
    | some c => simp [compare_sequences, DanceSequence.load, DanceSequence.length]
  · cases other with
    | none => simp [compare_sequences]
    | some c => simp [compare_sequences, DanceSequence.load, DanceSequence.length]

/-- Every cell of the DTW cost matrix is non-negative: boundary cells are
infinite and each interior cell adds a non-negative step cost to a
minimum of non-negative predecessors. -/
theorem dtwMat_nonneg {α : Type} [LinearOrderedField α] (seq1 seq2 : List α) :
    ∀ i j, 0 ≤ dtwMat seq1 seq2 i j := by
  intro i
  induction i with
  | zero =>
    intro j
    cases j with
    | zero => simp [dtwMat]
    | succ j => simp [dtwMat]
  | succ i ih =>
    intro j
    induction j with
    | zero => simp [dtwMat]
    | succ j jih =>
      simp only [dtwMat]
      refine add_nonneg ?_ (le_min (ih (j + 1)) (le_min jih (ih j)))
      exact_mod_cast abs_nonneg _

/-- Along the diagonal of the self-comparison matrix every step cost
vanishes, so each diagonal cell is bounded by the previous one. -/
theorem dtwMat_diag_nonpos {α : Type} [LinearOrderedField α] (s : List α) :
    ∀ i, dtwMat s s i i ≤ 0 := by
  intro i
  induction i with
  | zero => simp [dtwMat]
  | succ i ih =>
    have h1 : dtwMat s s (i + 1) (i + 1) =
        (↑|s.getD i 0 - s.getD i 0| : WithTop α) +
          min (dtwMat s s i (i + 1)) (min (dtwMat s s (i + 1) i) (dtwMat s s i i)) := by
      simp only [dtwMat]
    rw [h1, sub_self, abs_zero, WithTop.coe_zero, zero_add]
    exact le_trans (min_le_right _ _) (le_trans (min_le_right _ _) ih)

/-- C4: for every non-empty sequence the DTW self-distance is 0, and
normalize_score maps distance 0 to the full score 100 for every positive
sequence length. -/
theorem c4_dtw_self_zero_score_100 {α : Type} [LinearOrderedField α]
    (s : List α) (L : α) (hs : s ≠ []) (hL : 0 < L) :
    dtw_distance s s = 0 ∧ normalize_score (0 : α) L = 100 := by
  constructor
  · have hlen : s.length ≠ 0 := by simpa using hs
    simp only [dtw_distance]
    rw [if_neg (by simp [hlen])]
    exact le_antisymm (dtwMat_diag_nonpos s s.length)
      (dtwMat_nonneg s s s.length s.length)
  · rw [normalize_score, if_neg hL.ne']
    rw [zero_div, zero_div, zero_mul, sub_zero]
    exact max_eq_right (by norm_num)

/-- Witness for C4 at the concrete sequence [3, 7] and length 5. -/
theorem c4_dtw_self_zero_score_100_witness :
    (([3, 7] : List ℚ) ≠ [] ∧ (0 : ℚ) < 5) ∧
      (dtw_distance ([3, 7] : List ℚ) [3, 7] = 0 ∧ normalize_score (0 : ℚ) 5 = 100) :=
  ⟨⟨by decide, by decide⟩, c4_dtw_self_zero_score_100 [3, 7] 5 (by decide) (by decide)⟩

/-- C5: the DTW distance is never negative, and it is infinite whenever
either input sequence is empty. -/
theorem c5_dtw_nonneg_inf_on_empty {α : Type} [LinearOrderedField α]
    (seq1 seq2 : List α) :
    0 ≤ dtw_distance seq1 seq2 ∧
      dtw_distance ([] : List α) seq2 = ⊤ ∧ dtw_distance seq1 ([] : List α) = ⊤ := by
  refine ⟨?_, by simp [dtw_distance], by simp [dtw_distance]⟩
  by_cases h : seq1.length = 0 ∨ seq2.length = 0
  · simp only [dtw_distance]
    rw [if_pos h]
    exact le_top
  · simp only [dtw_distance, if_neg h]
    exact dtwMat_nonneg seq1 seq2 _ _

/-- Coordinate resolution yields none for a missing keypoint and for one
below the 0.5 visibility threshold. -/
theorem get_keypoint_coords_eq_none {c : AngleCalculator} {k : Option Keypoint}
    {uw : Bool} (h : keypointAbsentOrLowVis k) :
    c.get_keypoint_coords k uw = none := by
  rcases h with h | ⟨kp, hk, hv⟩
  · rw [h]
    rfl
  · rw [hk]
    simp only [AngleCalculator.get_keypoint_coords]
    rw [if_pos hv]

/-- An unresolved coordinate in any of the three slots makes the angle
absent. -/
theorem calculate_angle_from_keypoints_none {c : AngleCalculator}
    {ka kb kc : Option Keypoint} {uw : Bool}
    (h : c.get_keypoint_coords ka uw = none ∨ c.get_keypoint_coords kb uw = none ∨
      c.get_keypoint_coords kc uw = none) :
    c.calculate_angle_from_keypoints ka kb kc uw = none := by
  cases hka : c.get_keypoint_coords ka uw <;>
    cases hkb : c.get_keypoint_coords kb uw <;>
      cases hkc : c.get_keypoint_coords kc uw <;>
        simp_all [AngleCalculator.calculate_angle_from_keypoints]

/-- C6: calculate_joint_angle surfaces an error to the caller exactly
when the requested joint is outside the topology table; for a known joint
any missing or low-visibility keypoint instead yields the ok-none result
without error. -/
theorem c6_joint_angle_config_error (c : AngleCalculator) (pose : PoseResult)
    (joint : String) (use_world : Bool) :
    (isErrorE (c.calculate_joint_angle pose joint use_world) = true ↔
      lookupJoint joint = none) ∧
    (∀ pa v pc, lookupJoint joint = some (pa, v, pc) →
      (keypointAbsentOrLowVis (pose.get_keypoint pa) ∨
       keypointAbsentOrLowVis (pose.get_keypoint v) ∨
       keypointAbsentOrLowVis (pose.get_keypoint pc)) →
      c.calculate_joint_angle pose joint use_world = Except.ok none) := by
  constructor
  · cases h : lookupJoint joint with
    | none => simp [AngleCalculator.calculate_joint_angle, h, isErrorE]
    | some t =>
      obtain ⟨pa, v, pc⟩ := t
      simp [AngleCalculator.calculate_joint_angle, h, isErrorE]
  · intro pa v pc hl habs
    have hc : c.get_keypoint_coords (pose.get_keypoint pa) use_world = none ∨
        c.get_keypoint_coords (pose.get_keypoint v) use_world = none ∨
        c.get_keypoint_coords (pose.get_keypoint pc) use_world = none :=
      habs.imp (fun h => get_keypoint_coords_eq_none h)
        (fun h => h.imp (fun h => get_keypoint_coords_eq_none h)
          (fun h => get_keypoint_coords_eq_none h))
    simp [AngleCalculator.calculate_joint_angle, hl,
      calculate_angle_from_keypoints_none hc]

/-- Witness for C6: on a pose without keypoints, the unknown joint name
spine errors while the known joint left_elbow returns the absent angle. -/
theorem c6_joint_angle_config_error_witness :
    isErrorE (defaultCalc.calculate_joint_angle emptyPose "spine" true) = true ∧
    defaultCalc.calculate_joint_angle emptyPose "left_elbow" true = Except.ok none :=
  ⟨(c6_joint_angle_config_error defaultCalc emptyPose "spine" true).1.mpr (by decide),
   (c6_joint_angle_config_error defaultCalc emptyPose "left_elbow" true).2
     "left_shoulder" "left_elbow" "left_wrist" (by decide) (Or.inl (Or.inl rfl))⟩

/-- C3, counterexample: in c3_pose the left shoulder is detected with
visibility 0, below the 0.5 usability threshold, yet the shoulder tilt
metric still returns a value; the tilt metrics consult presence only. -/
theorem c3_visibility_counterexample :
    (c3_pose.get_keypoint "left_shoulder").map Keypoint.visibility = some 0 ∧
    ((0 : ℚ) < 1 / 2) ∧
    (defaultCalc.calculate_shoulder_tilt c3_pose).isSome = true := by
  refine ⟨by decide, by norm_num, ?_⟩
  rfl

/-- C3, amended: a posture metric returns absent whenever a keypoint it
requires is missing from the pose, and no posture metric ever throws (all
are total functions); visibility below 0.5 on a present keypoint does not
by itself make a metric absent - low visibility is consulted only where
coordinates pass through get_keypoint_coords, the nose fallback of the
neck angle. -/
theorem c3_posture_missing_none (c : AngleCalculator) (pose : PoseResult)
    (uw : Bool) :
    ((pose.get_keypoint "left_ear" = none ∨ pose.get_keypoint "right_ear" = none) →
      (pose.get_keypoint "left_eye" = none ∨ pose.get_keypoint "right_eye" = none) →
      c.calculate_head_tilt pose = none) ∧
    ((pose.get_keypoint "left_shoulder" = none ∨
      pose.get_keypoint "right_shoulder" = none) →
      c.calculate_neck_angle pose uw = none) ∧
    ((pose.get_keypoint "left_shoulder" = none ∨
      pose.get_keypoint "right_shoulder" = none ∨
      pose.get_keypoint "left_hip" = none ∨ pose.get_keypoint "right_hip" = none) →
      c.calculate_body_lean pose uw = none) ∧
    ((pose.get_keypoint "left_shoulder" = none ∨
      pose.get_keypoint "right_shoulder" = none) →
      c.calculate_shoulder_tilt pose = none) ∧
    ((pose.get_keypoint "left_hip" = none ∨ pose.get_keypoint "right_hip" = none) →
      c.calculate_hip_tilt pose = none) ∧
    ((pose.get_keypoint "left_shoulder" = none ∨
      pose.get_keypoint "right_shoulder" = none ∨
      pose.get_keypoint "left_hip" = none ∨ pose.get_keypoint "right_hip" = none) →
      c.calculate_spine_curve pose uw = none) := by
  refine ⟨?_, ?_, ?_, ?_, ?_, ?_⟩
  · intro he hy
    rcases hy with h2 | h2
    · rcases he with h | h <;> simp [AngleCalculator.calculate_head_tilt, h, h2]
    · rcases he with h | h <;>
        cases hl : pose.get_keypoint "left_eye" <;>
          simp [AngleCalculator.calculate_head_tilt, h, h2, hl]
  · intro h
    rcases h with h | h <;> simp [AngleCalculator.calculate_neck_angle, h]
  · intro h
    rcases h with h | h | h | h <;> simp [AngleCalculator.calculate_body_lean, h]
  · intro h
    rcases h with h | h
    · simp [AngleCalculator.calculate_shoulder_tilt, h]
    · cases hl : pose.get_keypoint "left_shoulder" <;>
        simp [AngleCalculator.calculate_shoulder_tilt, h, hl]
  · intro h
    rcases h with h | h
    · simp [AngleCalculator.calculate_hip_tilt, h]
    · cases hl : pose.get_keypoint "left_hip" <;>
        simp [AngleCalculator.calculate_hip_tilt, h, hl]
  · intro h
    rcases h with h | h | h | h <;> simp [AngleCalculator.calculate_spine_curve, h]

/-- Witness for C3 as amended: on a pose with no keypoints every posture
metric is absent. -/
theorem c3_posture_missing_none_witness :
    defaultCalc.calculate_head_tilt emptyPose = none ∧
    defaultCalc.calculate_neck_angle emptyPose true = none ∧
    defaultCalc.calculate_body_lean emptyPose true = none ∧
    defaultCalc.calculate_shoulder_tilt emptyPose = none ∧
    defaultCalc.calculate_hip_tilt emptyPose = none ∧
    defaultCalc.calculate_spine_curve emptyPose true = none := by
  obtain ⟨h1, h2, h3, h4, h5, h6⟩ := c3_posture_missing_none defaultCalc emptyPose true
  exact ⟨h1 (Or.inl rfl) (Or.inl rfl), h2 (Or.inl rfl), h3 (Or.inl rfl),
    h4 (Or.inl rfl), h5 (Or.inl rfl), h6 (Or.inl rfl)⟩

/-- C8: for every triplet of points, including degenerate zero-length
vectors handled by the epsilon guard and the clamp of the cosine, the
three-point angle lies between 0 and 180 degrees and the computation is
total. -/
theorem c8_angle_3points_range (a b c : List ℚ) :
    0 ≤ calculate_angle_3points a b c ∧ calculate_angle_3points a b c ≤ 180 := by
  simp only [calculate_angle_3points, degrees]
  constructor
  · exact div_nonneg (mul_nonneg (Real.arccos_nonneg _) (by norm_num)) Real.pi_pos.le
  · rw [div_le_iff₀ Real.pi_pos]
    calc Real.arccos _ * 180 ≤ Real.pi * 180 :=
          mul_le_mul_of_nonneg_right (Real.arccos_le_pi _) (by norm_num)
      _ = 180 * Real.pi := by ring

theorem arctan_nonpos_of_nonpos {t : ℝ} (h : t ≤ 0) : Real.arctan t ≤ 0 := by
  have h2 := Real.arctan_strictMono.monotone h
  rwa [Real.arctan_zero] at h2

theorem arctan_pos_of_pos {t : ℝ} (h : 0 < t) : 0 < Real.arctan t := by
  have h2 := Real.arctan_strictMono h
  rwa [Real.arctan_zero] at h2

/-- The quadrant-aware arctangent lands in the half-open interval from
-pi exclusive to pi inclusive. -/
theorem arctan2_range (y x : ℝ) : -Real.pi < arctan2 y x ∧ arctan2 y x ≤ Real.pi := by
  have hpi := Real.pi_pos
  unfold arctan2
  split_ifs with hx hx2 hy hyp hyn
  · have h1 := Real.neg_pi_div_two_lt_arctan (y / x)
    have h2 := Real.arctan_lt_pi_div_two (y / x)
    constructor <;> linarith
  · have h1 := Real.neg_pi_div_two_lt_arctan (y / x)
    have h2 : Real.arctan (y / x) ≤ 0 :=
      arctan_nonpos_of_nonpos (div_nonpos_iff.mpr (Or.inl ⟨hy, hx2.le⟩))
    constructor <;> linarith
  · push_neg at hy
    have h1 : 0 < Real.arctan (y / x) :=
      arctan_pos_of_pos (div_pos_iff.mpr (Or.inr ⟨hy, hx2⟩))
    have h2 := Real.arctan_lt_pi_div_two (y / x)
    constructor <;> linarith
  · constructor <;> linarith
  · constructor <;> linarith
  · constructor <;> linarith

theorem degrees_le_180 {r : ℝ} (h : r ≤ Real.pi) : degrees r ≤ 180 := by
  unfold degrees
  rw [div_le_iff₀ Real.pi_pos]
  linarith

theorem neg_180_lt_degrees {r : ℝ} (h : -Real.pi < r) : -180 < degrees r := by
  unfold degrees
  rw [lt_div_iff₀ Real.pi_pos]
  linarith

/-- The fold of the head-tilt angle maps the interval from -180 exclusive
to 180 inclusive into the closed interval from -90 to 90. -/
theorem headTiltFold_range {a : ℝ} (h1 : -180 < a) (h2 : a ≤ 180) :
    -90 ≤ headTiltFold a ∧ headTiltFold a ≤ 90 := by
  unfold headTiltFold
  split_ifs with habs hpos
  · rw [abs_lt] at habs
    constructor <;> linarith
  · rw [not_lt, le_abs] at habs
    have h3 : (90 : ℝ) ≤ a := by
      rcases habs with h | h
      · exact h
      · linarith
    constructor <;> linarith
  · rw [not_lt, le_abs] at habs
    push_neg at hpos
    have h3 : a ≤ -90 := by
      rcases habs with h | h
      · linarith
      · linarith
    constructor <;> linarith

/-- C7, amended: every value the head-tilt metric returns lies in the
closed interval from -90 to 90 degrees; the fold subtracts 180 from a
positive raw angle and adds 180 to a non-positive one whenever the raw
magnitude is at least 90, so both endpoints are attainable. -/
theorem c7_head_tilt_range (c : AngleCalculator) (pose : PoseResult) (v : ℝ)
    (h : c.calculate_head_tilt pose = some v) : -90 ≤ v ∧ v ≤ 90 := by
  unfold AngleCalculator.calculate_head_tilt at h
  split at h
  next l r heq =>
    injection h with h
    subst h
    obtain ⟨ha1, ha2⟩ := arctan2_range ((r.y - l.y : ℚ) : ℝ) ((r.x - l.x : ℚ) : ℝ)
    exact headTiltFold_range (neg_180_lt_degrees ha1) (degrees_le_180 ha2)
  next =>
    exact absurd h (by simp)

/-- The head-tilt metric over the level ears of c7_witness_pose evaluates
to 0 degrees. -/
theorem c7_witness_eval : defaultCalc.calculate_head_tilt c7_witness_pose = some 0 := by
  have h1 : (if (c7_witness_pose.get_keypoint "left_ear").isNone ||
        (c7_witness_pose.get_keypoint "right_ear").isNone
      then (c7_witness_pose.get_keypoint "left_eye", c7_witness_pose.get_keypoint "right_eye")
      else (c7_witness_pose.get_keypoint "left_ear", c7_witness_pose.get_keypoint "right_ear")) =
      (some ⟨"left_ear", 0, 0, 0, 1, 1, none, none, none⟩,
       some ⟨"right_ear", 1, 0, 0, 1, 1, none, none, none⟩) := by rfl
  unfold AngleCalculator.calculate_head_tilt
  rw [h1]
  show some (headTiltFold (degrees (arctan2 ((0 - 0 : ℚ) : ℝ) ((1 - 0 : ℚ) : ℝ)))) = some 0
  have e1 : ((0 - 0 : ℚ) : ℝ) = 0 := by norm_num
  have e2 : ((1 - 0 : ℚ) : ℝ) = 1 := by norm_num
  rw [e1, e2]
  have e3 : arctan2 0 1 = 0 := by
    unfold arctan2
    rw [if_pos one_pos]
    norm_num [Real.arctan_zero]
  have e4 : degrees 0 = 0 := by
    unfold degrees
    ring
  rw [e3, e4]
  have e5 : headTiltFold 0 = 0 := by
    unfold headTiltFold
    rw [if_pos (by norm_num : |(0 : ℝ)| < 90)]
  rw [e5]

/-- Witness for C7 as amended, at the concrete returned tilt 0. -/
theorem c7_head_tilt_range_witness :
    defaultCalc.calculate_head_tilt c7_witness_pose = some 0 ∧
      (-90 : ℝ) ≤ 0 ∧ (0 : ℝ) ≤ 90 :=
  ⟨c7_witness_eval, c7_head_tilt_range defaultCalc c7_witness_pose 0 c7_witness_eval⟩

/-- C7, counterexample: with the ears of c7_pose the raw arctangent angle
is exactly 90 degrees, which the fold sends to -90, a value outside the
claimed half-open interval from -90 exclusive to 90 inclusive. -/
theorem c7_head_tilt_counterexample :
    defaultCalc.calculate_head_tilt c7_pose = some (-90) ∧
      (-90 : ℝ) ∉ Set.Ioc (-90 : ℝ) 90 := by
  constructor
  · have h1 : (if (c7_pose.get_keypoint "left_ear").isNone ||
          (c7_pose.get_keypoint "right_ear").isNone
        then (c7_pose.get_keypoint "left_eye", c7_pose.get_keypoint "right_eye")
        else (c7_pose.get_keypoint "left_ear", c7_pose.get_keypoint "right_ear")) =
        (some ⟨"left_ear", 0, 0, 0, 1, 1, none, none, none⟩,
         some ⟨"right_ear", 0, 1, 0, 1, 1, none, none, none⟩) := by rfl
    unfold AngleCalculator.calculate_head_tilt
    rw [h1]
    show some (headTiltFold (degrees (arctan2 ((1 - 0 : ℚ) : ℝ) ((0 - 0 : ℚ) : ℝ)))) =
      some (-90)
    have e1 : ((1 - 0 : ℚ) : ℝ) = 1 := by norm_num
    have e2 : ((0 - 0 : ℚ) : ℝ) = 0 := by norm_num
    rw [e1, e2]
    have e3 : arctan2 1 0 = Real.pi / 2 := by
      unfold arctan2
      rw [if_neg (lt_irrefl 0), if_neg (lt_irrefl 0), if_pos one_pos]
    have e4 : degrees (Real.pi / 2) = 90 := by
      unfold degrees
      have hpi : Real.pi ≠ 0 := Real.pi_ne_zero
      field_simp
      ring
    rw [e3, e4]
    have e5 : headTiltFold 90 = -90 := by
      unfold headTiltFold
      rw [if_neg (by norm_num : ¬|(90 : ℝ)| < 90), if_pos (by norm_num : (0 : ℝ) < 90)]
      norm_num
    rw [e5]
  · simp

end MotionTracker
